import Mathlib

/-!
Verification development for the BlinkPDF repository.

The repository is a Flask web app (`app.py`) dispatching ~32 PDF tools to two
processor classes: `utils/pdf_processor.py` (class `PDFProcessor`, used by the
app) and `pdf_processor.py` (a second engine, referred to below as the
"engine").  This file gives a shallow embedding of the tool-dispatch and
option-normalization layer: Python strings, forms and option dictionaries are
modelled concretely; the per-tool conversion routines are embedded down to the
boundary where they hand their (already validated and coerced) arguments to the
third-party PDF libraries, whose effects are recorded symbolically in the
result values.  Filesystem and network facts that the code merely consults
(Tesseract availability, the rembg package, JSON well-formedness of
`json.loads`, `os.path.exists`, the uuid generator) are supplied through an
explicit environment record.
-/

namespace BlinkPDF

/-! ### Python string primitives -/

/-- ASCII whitespace recognised by Python `str.strip()` (the exotic Unicode
whitespace characters are not modelled; no caller in the repo depends on
them). -/
def pyWs (c : Char) : Bool :=
  c = ' ' ∨ c = '\t' ∨ c = '\n' ∨ c = '\r' ∨ c = '\x0b' ∨ c = '\x0c'

/-- Python `str.strip()`. -/
def pyStrip (s : String) : String :=
  ⟨((s.data.dropWhile pyWs).reverse.dropWhile pyWs).reverse⟩

/-- Python `str.lower()`, restricted to ASCII letters (the repo only lowercases
ASCII tool slugs, level names and file extensions). -/
def pyLower (s : String) : String :=
  ⟨s.data.map (fun c => if 'A' ≤ c ∧ c ≤ 'Z' then Char.ofNat (c.toNat + 32) else c)⟩

/-- Python `str.upper()`, restricted to ASCII letters. -/
def pyUpper (s : String) : String :=
  ⟨s.data.map (fun c => if 'a' ≤ c ∧ c ≤ 'z' then Char.ofNat (c.toNat - 32) else c)⟩

/-- Split a character list at every separator satisfying `p`, keeping empty
segments (the general splitter backing Python `str.split`); written over
`List Char` so that it evaluates by kernel reduction. -/
def pySplitPredAux (p : Char → Bool) : List Char → List Char → List String
  | acc, [] => [String.mk acc.reverse]
  | acc, c :: rest =>
    if p c then String.mk acc.reverse :: pySplitPredAux p [] rest
    else pySplitPredAux p (c :: acc) rest

/-- Python `s.split(sep)` for a one-character separator (every separator use
in this repo is a single character). -/
def pySplitOn (s : String) (sep : Char) : List String :=
  pySplitPredAux (· = sep) [] s.data

/-- Python `s.split()` (no argument): split on whitespace runs, dropping
empty segments. -/
def pySplitWs (s : String) : List String :=
  (pySplitPredAux pyWs [] s.data).filter (· ≠ "")

/-- `sep.join(parts)`. -/
def joinWith (sep : String) : List String → String
  | [] => ""
  | x :: xs => xs.foldl (fun acc y => acc ++ sep ++ y) x

/-- Python `c in s` for a single character. -/
def pyContains (s : String) (c : Char) : Bool := s.data.any (· = c)

/-- Python `s.endswith(suffix)`. -/
def pyEndsWith (s suffix : String) : Bool :=
  List.isPrefixOf suffix.data.reverse s.data.reverse

/-- Python `s.replace(a, b)` for one-character arguments. -/
def replaceChar (s : String) (a b : Char) : String :=
  ⟨s.data.map (fun c => if c = a then b else c)⟩

/-- Python `s[:n]`. -/
def pyTake (s : String) (n : Nat) : String := ⟨s.data.take n⟩

def pyDigit (c : Char) : Bool := '0' ≤ c ∧ c ≤ '9'

/-- Continue parsing a Python integer literal after at least one digit has been
read: further digits, with single underscores allowed between digits. -/
def pyDigitsGo (acc : Nat) : List Char → Option Nat
  | [] => some acc
  | '_' :: c :: rest =>
    if pyDigit c then pyDigitsGo (acc * 10 + (c.toNat - 48)) rest else none
  | ['_'] => none
  | c :: rest =>
    if pyDigit c then pyDigitsGo (acc * 10 + (c.toNat - 48)) rest else none

/-- Parse a run of digits with Python underscore rules (must start and end
with a digit, no double underscore). -/
def pyDigits : List Char → Option Nat
  | [] => none
  | c :: rest => if pyDigit c then pyDigitsGo (c.toNat - 48) rest else none

/-- Python `int(s)` for a string argument: surrounding whitespace, an optional
sign, then digits (with underscore grouping).  Returns `none` where Python
raises `ValueError`.  (Non-ASCII digit characters are not modelled.) -/
def pyInt (s : String) : Option Int :=
  match (pyStrip s).data with
  | [] => none
  | '+' :: rest => (pyDigits rest).map Int.ofNat
  | '-' :: rest => (pyDigits rest).map (fun n => -(n : Int))
  | cs => (pyDigits cs).map Int.ofNat

/-- Whether Python `float(s)` succeeds on a string: optional sign, then
`inf`/`infinity`/`nan` or a decimal literal with optional fraction and
exponent (underscore grouping as for integers).  Only validity is modelled;
no claim depends on the numeric value of a float option. -/
def pyFloatValid (s : String) : Bool :=
  let t := pyLower (pyStrip s)
  let body :=
    match t.data with
    | '+' :: rest => rest
    | '-' :: rest => rest
    | cs => cs
  let bodyStr : String := ⟨body⟩
  if bodyStr = "inf" ∨ bodyStr = "infinity" ∨ bodyStr = "nan" then true
  else
    -- split off an exponent part at the first e, if present
    let parts := pySplitOn bodyStr 'e'
    let mantissaOk : String → Bool := fun m =>
      let ps := pySplitOn m '.'
      match ps with
      | [intPart] => (pyDigits intPart.data).isSome
      | [intPart, fracPart] =>
        (!(intPart = "" && fracPart = "")) &&
        (intPart = "" || (pyDigits intPart.data).isSome) &&
        (fracPart = "" || (pyDigits fracPart.data).isSome)
      | _ => false
    let expOk : String → Bool := fun e =>
      match e.data with
      | '+' :: rest => (pyDigits rest).isSome
      | '-' :: rest => (pyDigits rest).isSome
      | cs => (pyDigits cs).isSome
    match parts with
    | [m] => mantissaOk m
    | [m, e] => mantissaOk m && expOk e
    | _ => false

/-- Python `part.split(sep, 1)` for a one-character separator: split at the
first occurrence only (the caller always checks the separator occurs). -/
def splitOnce (s : String) (sep : Char) : String × String :=
  (String.mk (s.data.takeWhile (· ≠ sep)),
   String.mk ((s.data.dropWhile (· ≠ sep)).drop 1))

/-- Python `range(a, b + 1)` as a list of integers. -/
def pyRangeIncl (a b : Int) : List Int :=
  (List.range (b + 1 - a).toNat).map (fun i : Nat => a + (i : Int))

/-- Python string `or`: the left operand unless it is empty (falsy). -/
def pyOrS (a b : String) : String := if a ≠ "" then a else b

/-- `os.path.basename`: the part after the last slash. -/
def pyBasename (s : String) : String :=
  match (pySplitOn s '/').reverse with
  | [] => s
  | b :: _ => b

/-- `os.path.splitext`: split the basename at its last dot, except when every
character before that dot (in the basename) is itself a dot. -/
def splitExt (s : String) : String × String :=
  let b := pyBasename s
  let idx? := (List.range b.data.length).reverse.find?
    (fun i => b.data.getD i ' ' = '.')
  match idx? with
  | none => (s, "")
  | some i =>
    if (b.data.take i).all (· = '.') then (s, "")
    else
      let cut := s.data.length - (b.data.length - i)
      (⟨s.data.take cut⟩, ⟨s.data.drop cut⟩)

/-! ### Option values, forms and dictionaries

Flask form data is a flat string-to-string mapping; `app.py`'s `_map_options`
builds a Python dict whose values are strings, one `int` (the rotate angle)
and one `bool` (`keep_filename`).  `OptVal` covers exactly these. -/

inductive OptVal
  | str (s : String)
  | int (n : Int)
  | bool (b : Bool)
deriving DecidableEq, Repr

/-- Python truthiness of an option value (`""`, `0` and `False` are falsy). -/
def OptVal.truthy : OptVal → Bool
  | .str s => s ≠ ""
  | .int n => n ≠ 0
  | .bool b => b

/-- Python `int(v)` on an option value: `none` where Python raises
`ValueError` (non-numeric string). -/
def pyIntOfVal : OptVal → Option Int
  | .int n => some n
  | .bool b => some (if b then 1 else 0)
  | .str s => pyInt s

/-- A decoded form body: ordered key/value pairs; `get` returns the first
value for a key, as werkzeug does. -/
abbrev Form := List (String × String)

def Form.get? (f : Form) (k : String) : Option String :=
  (List.find? (fun kv => kv.1 == k) f).map (·.2)

def Form.getD (f : Form) (k : String) (d : String) : String :=
  (f.get? k).getD d

/-- A Python dict of tool options, in insertion order. -/
abbrev Options := List (String × OptVal)

def Options.get? (o : Options) (k : String) : Option OptVal :=
  (List.find? (fun kv => kv.1 == k) o).map (·.2)

/-- `options.get(k, d)`. -/
def Options.getD (o : Options) (k : String) (d : OptVal) : OptVal :=
  (o.get? k).getD d

/-- Python dict assignment `d[k] = v`: replace in place if present, else
append. -/
def dictSet (o : Options) (k : String) (v : OptVal) : Options :=
  if (List.find? (fun kv => kv.1 == k) o).isSome then
    o.map (fun kv => if kv.1 == k then (k, v) else kv)
  else o ++ [(k, v)]

/-- Python `d.setdefault(k, v)`. -/
def dictSetdefault (o : Options) (k : String) (v : OptVal) : Options :=
  if (o.get? k).isSome then o else o ++ [(k, v)]

/-- `a or b` where `a` came from `options.get(key)` (possibly `None`) and `b`
is a fallback value. -/
def pyOrV (a : Option OptVal) (b : OptVal) : OptVal :=
  match a with
  | some v => if v.truthy then v else b
  | none => b

/-- `a or b` for two `options.get` results. -/
def pyOrO (a b : Option OptVal) : Option OptVal :=
  match a with
  | some v => if v.truthy then some v else b
  | none => b

/-! ### Tool registries (`tools.py` and `app.py`)

Presentation-only fields (`desc`, `icon`, the AI tool `url`s) are omitted;
no processing code reads them. -/

structure Tool where
  slug : String
  title : String
deriving DecidableEq, Repr

/-- `TOOLS` from `tools.py` (32 entries, insertion order). -/
def toolsPyTools : List Tool :=
  [⟨"merge-pdf", "Merge PDF"⟩, ⟨"split-pdf", "Split PDF"⟩,
   ⟨"compress-pdf", "Compress PDF"⟩, ⟨"optimize-pdf", "Optimize PDF"⟩,
   ⟨"rotate-pdf", "Rotate PDF"⟩, ⟨"watermark-pdf", "Watermark PDF"⟩,
   ⟨"number-pdf", "Number Pages"⟩, ⟨"protect-pdf", "Protect PDF"⟩,
   ⟨"unlock-pdf", "Unlock PDF"⟩, ⟨"repair-pdf", "Repair PDF"⟩,
   ⟨"organize-pdf", "Organize PDF"⟩, ⟨"sign-pdf", "Sign PDF"⟩,
   ⟨"annotate-pdf", "Annotate PDF"⟩, ⟨"redact-pdf", "Redact PDF"⟩,
   ⟨"pdf-to-word", "PDF to Word"⟩, ⟨"word-to-pdf", "Word to PDF"⟩,
   ⟨"pdf-to-image", "PDF to Image"⟩, ⟨"image-to-pdf", "Image to PDF"⟩,
   ⟨"pdf-to-excel", "PDF to Excel"⟩, ⟨"excel-to-pdf", "Excel to PDF"⟩,
   ⟨"pdf-to-powerpoint", "PDF to PowerPoint"⟩,
   ⟨"powerpoint-to-pdf", "PowerPoint to PDF"⟩,
   ⟨"ocr-pdf", "OCR PDF"⟩, ⟨"extract-text", "Extract Text"⟩,
   ⟨"extract-images", "Extract Images"⟩, ⟨"deskew-pdf", "Deskew PDF"⟩,
   ⟨"crop-pdf", "Crop PDF"⟩, ⟨"resize-pdf", "Resize PDF"⟩,
   ⟨"flatten-pdf", "Flatten PDF"⟩, ⟨"metadata-editor", "Metadata Editor"⟩,
   ⟨"fill-forms", "Fill PDF Forms"⟩, ⟨"background-remover", "Remove Background"⟩]

/-- `SLUG_TO_TOOL[s]` from `tools.py`: dict built by comprehension over
`TOOLS`; slugs are unique so first-match lookup is the dict lookup. -/
def slugToTool (s : String) : Option Tool :=
  List.find? (fun t => t.slug == s) toolsPyTools

/-- `app.py` defines its own `TOOLS` list with the same 32 slugs; the process
route does `next((t for t in TOOLS if t["slug"] == slug), None)`. -/
def appTools : List Tool := toolsPyTools

def appLookupTool (slug : String) : Option Tool :=
  List.find? (fun t => t.slug == slug) appTools

def appToolSlugs : List String := appTools.map (·.slug)

/-! ### `app.py _map_options` -/

/-- `_map_options(slug, form)`: maps form fields from `tool_page.html` into
the option keys expected by `PDFProcessor.process()`.  A line-by-line
translation of `app.py` lines 287-398. -/
def mapOptions (slug : String) (form : Form) : Options :=
  let options : Options := []
  -- Common fields (pages)
  let pages := pyStrip (form.getD "pages" "")
  let options := if pages ≠ "" then
      dictSet (dictSet options "pages" (.str pages)) "page_range" (.str pages)
    else options
  -- Password (protect/unlock)
  let password := pyStrip (form.getD "password" "")
  let options := if password ≠ "" then
      dictSet (dictSet options "password" (.str password)) "new_password" (.str password)
    else options
  -- Watermark text
  let watermark_text := pyStrip (form.getD "watermark_text" "")
  let options := if watermark_text ≠ "" then
      dictSet options "watermark_text" (.str watermark_text)
    else options
  -- Keep filename flag
  let keep_filename := form.get? "keep_filename_hidden"
  let options := if keep_filename = some "1" then
      dictSet options "keep_filename" (.bool true)
    else options
  -- Compress
  let options := if slug = "compress-pdf" then
      dictSet options "compression_level" (.str (form.getD "compression_level" "2"))
    else options
  -- Rotate: try int(angle_raw) except ValueError: 0
  let options := if slug = "rotate-pdf" then
      dictSet options "angle" (.int ((pyInt (form.getD "rotation_angle" "0")).getD 0))
    else options
  -- Watermark
  let options := if slug = "watermark-pdf" then
      let o := dictSetdefault options "watermark_text"
        (.str (pyOrS watermark_text "CONFIDENTIAL"))
      let o := dictSet o "watermark_opacity" (.str (form.getD "watermark_opacity" "0.15"))
      dictSet o "watermark_position" (.str (form.getD "watermark_position" "center"))
    else options
  -- Reorder / delete (organize + crop)
  let options := if slug = "organize-pdf" ∨ slug = "crop-pdf" then
      let order := pyStrip ((form.get? "page_order").getD "")
      let deleted_ui := pyStrip ((form.get? "deleted_pages").getD "")
      let deleted_legacy := pyStrip ((form.get? "delete_pages").getD "")
      let o := if order ≠ "" then dictSet options "page_order" (.str order) else options
      let deleted_final := pyOrS deleted_ui deleted_legacy
      if deleted_final ≠ "" then dictSet o "delete_pages" (.str deleted_final) else o
    else options
  -- PRO++ crop
  let options := if slug = "crop-pdf" then
      let crop_regions := pyStrip ((form.get? "crop_regions").getD "")
      if crop_regions ≠ "" then dictSet options "crop_regions" (.str crop_regions)
      else
        let o := dictSet options "crop_top" (.str (form.getD "crop_top" "0"))
        let o := dictSet o "crop_right" (.str (form.getD "crop_right" "0"))
        let o := dictSet o "crop_bottom" (.str (form.getD "crop_bottom" "0"))
        dictSet o "crop_left" (.str (form.getD "crop_left" "0"))
    else options
  -- Resize
  let options := if slug = "resize-pdf" then
      dictSet options "page_size" (.str (form.getD "page_size" "A4"))
    else options
  -- OCR language
  let options := if slug = "ocr-pdf" then
      dictSet options "ocr_lang" (.str (form.getD "ocr_lang" "eng"))
    else options
  -- Metadata
  let options := if slug = "metadata-editor" then
      ["title", "author", "subject", "keywords", "creator", "producer"].foldl
        (fun o key =>
          match form.get? key with
          | some v => if v ≠ "" then dictSet o key (.str v) else o
          | none => o)
        options
    else options
  -- Fill forms
  let options := if slug = "fill-forms" then
      dictSet options "form_data_json" (.str (form.getD "form_data_json" "\x7b\x7d"))
    else options
  options

/-- The form keys `_map_options` consults for a given slug — the de facto
option schema of each tool (the code reads no other key, so any other form
key is silently ignored). -/
def consultedKeys (slug : String) : List String :=
  ["pages", "password", "watermark_text", "keep_filename_hidden"]
  ++ (if slug = "compress-pdf" then ["compression_level"] else [])
  ++ (if slug = "rotate-pdf" then ["rotation_angle"] else [])
  ++ (if slug = "watermark-pdf" then ["watermark_opacity", "watermark_position"] else [])
  ++ (if slug = "organize-pdf" ∨ slug = "crop-pdf" then
        ["page_order", "deleted_pages", "delete_pages"] else [])
  ++ (if slug = "crop-pdf" then
        ["crop_regions", "crop_top", "crop_right", "crop_bottom", "crop_left"] else [])
  ++ (if slug = "resize-pdf" then ["page_size"] else [])
  ++ (if slug = "ocr-pdf" then ["ocr_lang"] else [])
  ++ (if slug = "metadata-editor" then
        ["title", "author", "subject", "keywords", "creator", "producer"] else [])
  ++ (if slug = "fill-forms" then ["form_data_json"] else [])

/-! ### Runtime environment and file blobs -/

/-- Facts about the host that the code consults: optional dependencies,
`os.path.exists`, `json.loads` well-formedness, and the uuid generator
(abstracted; the code uses `uuid.uuid4().hex[:8]`). -/
structure Env where
  tesseract : Bool
  rembg : Bool
  jsonLoadsOk : String → Bool
  jsonIsObject : String → Bool
  pathExists : String → Bool
  uidFor : Nat → String

/-- An on-disk input file as the processors see it: its path and the page
list a PDF reader would yield (pages are opaque tokens), plus the number of
embedded images (consulted only by `extract-images`). -/
structure FileBlob where
  path : String
  pages : List String
  embeddedImages : Nat := 0
deriving DecidableEq, Repr

/-! ### `utils/pdf_processor.py` — processing errors and results -/

inductive ProcErr
  | pdfError (msg : String)    -- PDFProcessorError
  | valueError (msg : String)  -- ValueError (e.g. failed int()/float())
  | typeError (msg : String)   -- str operation applied to a non-str value
deriving DecidableEq, Repr

/-- The argument package each conversion routine hands to the underlying
PDF library; routine interiors past this point are plain third-party
library calls and are recorded symbolically. -/
inductive ToolOutput
  | merged (pages : List String)
  | split (indices : List Nat)
  | compressed (level : String)
  | optimized
  | rotated (angle : Int)
  | watermarked (text opacity position : String)
  | numbered (position : String)
  | protectedWith (password : String)
  | unlocked (password : String)
  | repaired
  | organized (kept : List Nat)
  | signed (signaturePath : String)
  | annotated (text : String)
  | redacted (text : String)
  | converted (kind : String)
  | pdfToImages (fmt : String) (dpi : Int)
  | imagesToPdf (paths : List String)
  | ocr (lang : String)
  | extractedText
  | extractedImages
  | deskewed
  | cropRegions (regionsJson : String)
  | cropMargins (top right bottom left : String)
  | resized (size : String)
  | flattened
  | metadataEdited (cleaned : Options)
  | formsFilled (dataJson : String)
  | backgroundRemoved
  | engCompressed (quality imageDpi : Int)
deriving DecidableEq, Repr

/-- The `(output_path, download_name, mimetype)` triple returned by
`PDFProcessor.process`; the temp-file path is abstracted into the symbolic
`ToolOutput`. -/
structure ProcResult where
  out : ToolOutput
  name : String
  mime : String
deriving DecidableEq, Repr

instance {e a : Type} [DecidableEq e] [DecidableEq a] : DecidableEq (Except e a) := fun x y =>
  match x, y with
  | .ok u, .ok v =>
    if h : u = v then .isTrue (by rw [h]) else .isFalse (fun he => h (Except.ok.inj he))
  | .error u, .error v =>
    if h : u = v then .isTrue (by rw [h]) else .isFalse (fun he => h (Except.error.inj he))
  | .ok _, .error _ => .isFalse (fun he => Except.noConfusion he)
  | .error _, .ok _ => .isFalse (fun he => Except.noConfusion he)

/-- A string method applied to an option value: succeeds only on `str`
(Python would raise `AttributeError`/`TypeError` otherwise). -/
def OptVal.expectStr : OptVal → Except ProcErr String
  | .str s => .ok s
  | _ => .error (.typeError "str operation on non-str option value")

/-- Python `float(v)` on an option value; the numeric value is kept symbolic
as its source text, only parse success/failure is modelled. -/
def pyFloatCheck : OptVal → Except ProcErr String
  | .int n => .ok (toString n)
  | .bool b => .ok (if b then "1" else "0")
  | .str s => if pyFloatValid s then .ok s
              else .error (.valueError "could not convert string to float")

/-! ### `utils/pdf_processor.py` — helpers and routines -/

/-- `PDFProcessor._normalize_compression_level` (lines 288-297): slider values
1/2/3 or words map to internal levels high/medium/low; everything else falls
back to "medium".  (For a string argument `(raw or "")` equals `raw`.) -/
def normalizeCompressionLevel (raw : String) : String :=
  let val := pyLower (pyStrip raw)
  if val = "1" ∨ val = "high" ∨ val = "hq" then "high"
  else if val = "3" ∨ val = "low" ∨ val = "smallest" then "low"
  else "medium"

/-- Python `min(xs, key=f)`: the first element attaining the minimal key. -/
def pyMinBy (xs : List Int) (f : Int → Nat) : Int :=
  match xs with
  | [] => 0
  | x :: rest => rest.foldl (fun best c => if f c < f best then c else best) x

/-- The angle normalization prefix of `PDFProcessor.rotate_pdf` (lines
400-405): reduce modulo 360, then snap to the nearest of 0/90/180/270 via
Python `min` with key `abs(a - angle)`. -/
def rotateNormalize (angle : Int) : Int :=
  let a := angle % 360
  if a = 0 ∨ a = 90 ∨ a = 180 ∨ a = 270 then a
  else pyMinBy [0, 90, 180, 270] (fun c => (c - a).natAbs)

/-- Python `pages.add(p)` on the page set, with the final `sorted(pages)`
fused in: the set is maintained directly as an ascending duplicate-free
list, which yields exactly the list `sorted(set)` produces at the end. -/
def pageInsert (p : Nat) (l : List Nat) : List Nat :=
  if p ∈ l then l else l.orderedInsert (· ≤ ·) p

def pageRangeStep (totalPages : Nat) (acc : Option (List Nat)) (part : String) :
    Option (List Nat) :=
  match acc with
  | none => none
  | some pages =>
    if pyContains part '-' then
      let se := splitOnce part '-'
      match (if se.1 = "" then some 1 else pyInt se.1),
            (if se.2 = "" then some (totalPages : Int) else pyInt se.2) with
      | some start, some stop =>
        some ((pyRangeIncl start stop).foldl
          (fun s p =>
            if 1 ≤ p ∧ p ≤ (totalPages : Int) then pageInsert (p - 1).toNat s else s)
          pages)
      | _, _ => none
    else
      match pyInt part with
      | none => some pages
      | some p =>
        some (if 1 ≤ p ∧ p ≤ (totalPages : Int) then pageInsert (p - 1).toNat pages else pages)

/-- `PDFProcessor._page_ranges_to_list` (lines 260-286): convert a spec like
"1-3,5,7-" into zero-based page indices (a sorted Python set).  Returns
`none` where an uncaught `ValueError` escapes (a malformed bound inside a
range part; bare non-numeric parts are skipped by the inner try/except). -/
def pageRangesToList (spec : String) (totalPages : Nat) : Option (List Nat) :=
  if spec = "" then some (List.range totalPages)
  else
    let parts := ((pySplitOn spec ',').map pyStrip).filter (· ≠ "")
    parts.foldl (pageRangeStep totalPages) (some [])

/-- `PDFProcessor.merge_pdfs` (lines 305-314): one `PdfWriter`, pages of each
input appended in input order. -/
def merge_pdfs (paths : List FileBlob) : ProcResult :=
  ⟨.merged (paths.foldl (fun acc f => acc ++ f.pages) []), "merged.pdf", "application/pdf"⟩

/-- `PDFProcessor.split_pdf` (lines 316-328). -/
def split_pdf (f : FileBlob) (pagesSpec : String) : Except ProcErr ProcResult :=
  let total := f.pages.length
  match pageRangesToList pagesSpec total with
  | none => .error (.valueError "invalid literal for int with base 10")
  | some indices =>
    let indices := if indices = [] then List.range total else indices
    .ok ⟨.split indices, "split.pdf", "application/pdf"⟩

/-- `PDFProcessor.compress_pdf` (lines 330-377): the save parameters derived
from the level are library arguments; the level itself is the observable. -/
def compress_pdf (f : FileBlob) (level : String) : ProcResult :=
  ⟨.compressed level, "compressed.pdf", "application/pdf"⟩

/-- `PDFProcessor.rotate_pdf` (lines 399-417). -/
def rotate_pdf (f : FileBlob) (angle : Int) : ProcResult :=
  ⟨.rotated (rotateNormalize angle), "rotated.pdf", "application/pdf"⟩

/-- `PDFProcessor.organize_pdf` (lines 454-488). -/
def organize_pdf (f : FileBlob) (orderSpec deleteSpec : String) :
    Except ProcErr ProcResult :=
  let total := f.pages.length
  match (if deleteSpec ≠ "" then pageRangesToList deleteSpec total else some []) with
  | none => .error (.valueError "invalid literal for int with base 10")
  | some delete =>
    match (if orderSpec ≠ "" then pageRangesToList orderSpec total
           else some (List.range total)) with
    | none => .error (.valueError "invalid literal for int with base 10")
    | some order =>
      .ok ⟨.organized (order.filter (fun idx => idx ∉ delete ∧ idx < total)),
           "organized.pdf", "application/pdf"⟩

/-- `PDFProcessor.pdf_to_images` (lines 648-677): the routine itself falls
back to png for an unknown format. -/
def pdf_to_images (f : FileBlob) (imageFormat : String) (dpi : Int) : ProcResult :=
  let fmt := pyLower imageFormat
  let fmt := if fmt = "png" ∨ fmt = "jpg" ∨ fmt = "jpeg" then fmt else "png"
  ⟨.pdfToImages fmt dpi, "images.zip", "application/zip"⟩

/-- `PDFProcessor.images_to_pdf` (lines 679-696); opening each path as an
image is a library call, so validity of the image bytes is out of scope. -/
def images_to_pdf (paths : List FileBlob) : Except ProcErr ProcResult :=
  if paths = [] then .error (.pdfError "No valid images provided.")
  else .ok ⟨.imagesToPdf (paths.map (·.path)), "images.pdf", "application/pdf"⟩

/-- `PDFProcessor.ocr_pdf` (lines 836-864): `pytesseract` raises
`TesseractNotFoundError` when the binary is absent, converted to a
`PDFProcessorError`. -/
def ocr_pdf (env : Env) (f : FileBlob) (lang : String) : Except ProcErr ProcResult :=
  if env.tesseract then .ok ⟨.ocr lang, "ocr.pdf", "application/pdf"⟩
  else .error (.pdfError
    "Tesseract OCR binary not found on server. Install it to enable OCR functionality.")

/-- `PDFProcessor.deskew_pdf` (lines 913-956). -/
def deskew_pdf (env : Env) (f : FileBlob) : Except ProcErr ProcResult :=
  if env.tesseract then .ok ⟨.deskewed, "deskewed.pdf", "application/pdf"⟩
  else .error (.pdfError
    "Tesseract OCR binary not found on server. Install it to enable deskew functionality.")

/-- `PDFProcessor.extract_images` (lines 879-909): raises when the PDF has no
embedded images. -/
def extract_images (f : FileBlob) : Except ProcErr ProcResult :=
  if f.embeddedImages = 0 then .error (.pdfError "No embedded images found in PDF.")
  else .ok ⟨.extractedImages, "images.zip", "application/zip"⟩

/-- `PDFProcessor.crop_pdf_regions` (lines 986-1047); well-formedness of the
JSON is consulted through the environment. -/
def crop_pdf_regions (env : Env) (f : FileBlob) (regionsJson : String) :
    Except ProcErr ProcResult :=
  if ¬ env.jsonLoadsOk regionsJson then .error (.pdfError "Invalid crop_regions JSON.")
  else if ¬ env.jsonIsObject regionsJson then
    .error (.pdfError "crop_regions JSON must be an object.")
  else .ok ⟨.cropRegions regionsJson, "cropped.pdf", "application/pdf"⟩

/-- The margin-based fallback of the crop branch of `process` (lines 217-222),
four `float(...)` coercions then `crop_pdf`. -/
def utilsCropFallback (f : FileBlob) (options : Options) : Except ProcErr ProcResult := do
  let top ← pyFloatCheck (pyOrV (some (options.getD "crop_top" (.str "0"))) (.str "0"))
  let right ← pyFloatCheck (pyOrV (some (options.getD "crop_right" (.str "0"))) (.str "0"))
  let bottom ← pyFloatCheck (pyOrV (some (options.getD "crop_bottom" (.str "0"))) (.str "0"))
  let left ← pyFloatCheck (pyOrV (some (options.getD "crop_left" (.str "0"))) (.str "0"))
  .ok ⟨.cropMargins top right bottom left, "cropped.pdf", "application/pdf"⟩

/-- `PDFProcessor.resize_pdf` (lines 1049-1075). -/
def resize_pdf (f : FileBlob) (size : String) : ProcResult :=
  let size := pyUpper size
  ⟨.resized (if size = "LETTER" then "LETTER" else "A4"), "resized.pdf", "application/pdf"⟩

/-- `PDFProcessor.edit_metadata` (lines 1088-1108). -/
def edit_metadata (f : FileBlob) (meta : Options) : ProcResult :=
  let cleaned := meta.filter (fun kv =>
    kv.2.truthy ∧ (kv.1 = "title" ∨ kv.1 = "author" ∨ kv.1 = "subject" ∨
      kv.1 = "keywords" ∨ kv.1 = "creator" ∨ kv.1 = "producer"))
  ⟨.metadataEdited cleaned, "metadata.pdf", "application/pdf"⟩

/-- `PDFProcessor.remove_background` (lines 1127-1154). -/
def remove_background (env : Env) (f : FileBlob) : Except ProcErr ProcResult :=
  let ext := pyLower (splitExt f.path).2
  if ¬ (ext = ".png" ∨ ext = ".jpg" ∨ ext = ".jpeg" ∨ ext = ".webp") then
    .error (.pdfError "Background remover expects an image file.")
  else if ¬ env.rembg then
    .error (.pdfError
      "Background remover requires the \x27rembg\x27 package. Add \x27rembg\x27 to requirements.txt and deploy again.")
  else .ok ⟨.backgroundRemoved, "no-background.png", "image/png"⟩

/-- `PDFProcessor.process` from `utils/pdf_processor.py` (lines 42-249): the
public entry point routing a tool slug to its implementation.  Note the
initial `slug.strip().lower()`. -/
def utilsProcess (env : Env) (slug0 : String) (inputFiles : List FileBlob)
    (options : Options) : Except ProcErr ProcResult :=
  let slug := pyLower (pyStrip slug0)
  match inputFiles with
  | [] => .error (.pdfError "No input files provided")
  | first :: _ =>
    if slug = "merge-pdf" then .ok (merge_pdfs inputFiles)
    else if slug = "split-pdf" then do
      let pages := pyOrV (options.get? "pages") (pyOrV (options.get? "page_range") (.str ""))
      split_pdf first (← pages.expectStr)
    else if slug = "compress-pdf" then do
      let rawLevel := options.getD "compression_level" (.str "2")
      let level := normalizeCompressionLevel (← rawLevel.expectStr)
      .ok (compress_pdf first level)
    else if slug = "optimize-pdf" then .ok ⟨.optimized, "optimized.pdf", "application/pdf"⟩
    else if slug = "rotate-pdf" then
      let angleVal := pyOrV (options.get? "rotation_angle")
        (pyOrV (options.get? "angle") (.str "0"))
      -- try int(angle_str) except ValueError: angle = 0
      let angle := (pyIntOfVal angleVal).getD 0
      .ok (rotate_pdf first angle)
    else if slug = "watermark-pdf" then do
      let text ← (pyOrV (options.get? "watermark_text") (.str "CONFIDENTIAL")).expectStr
      let opacity ← pyFloatCheck
        (pyOrV (some (options.getD "watermark_opacity" (.str "0.15"))) (.str "0.15"))
      let position ← (options.getD "watermark_position" (.str "center")).expectStr
      .ok ⟨.watermarked text opacity position, "watermarked.pdf", "application/pdf"⟩
    else if slug = "number-pdf" then do
      let position ← (options.getD "position" (.str "bottom-right")).expectStr
      .ok ⟨.numbered position, "numbered.pdf", "application/pdf"⟩
    else if slug = "protect-pdf" then
      match pyOrO (options.get? "password") (options.get? "new_password") with
      | some v =>
        if v.truthy then do
          .ok ⟨.protectedWith (← v.expectStr), "protected.pdf", "application/pdf"⟩
        else .error (.pdfError "Password is required to protect PDF.")
      | none => .error (.pdfError "Password is required to protect PDF.")
    else if slug = "unlock-pdf" then
      match options.get? "password" with
      | some v =>
        if v.truthy then do
          .ok ⟨.unlocked (← v.expectStr), "unlocked.pdf", "application/pdf"⟩
        else .error (.pdfError "Password is required to unlock PDF.")
      | none => .error (.pdfError "Password is required to unlock PDF.")
    else if slug = "repair-pdf" then .ok ⟨.repaired, "repaired.pdf", "application/pdf"⟩
    else if slug = "organize-pdf" then do
      let pageOrderSpec := pyOrV (options.get? "page_order")
        (pyOrV (options.get? "order") (.str ""))
      let deletedSpec := pyOrV (options.get? "deleted_pages")
        (pyOrV (options.get? "delete_pages") (.str ""))
      let pagesTruthy := match options.get? "pages" with
        | some v => v.truthy
        | none => false
      let pageOrderSpec :=
        if !pageOrderSpec.truthy && pagesTruthy then
          pyOrV (options.get? "pages") (.str "")
        else pageOrderSpec
      organize_pdf first (← pageOrderSpec.expectStr) (← deletedSpec.expectStr)
    else if slug = "sign-pdf" then
      match options.get? "signature_path" with
      | some v =>
        if v.truthy then do
          let p ← v.expectStr
          if env.pathExists p then .ok ⟨.signed p, "signed.pdf", "application/pdf"⟩
          else .error (.pdfError "Signature image not provided.")
        else .error (.pdfError "Signature image not provided.")
      | none => .error (.pdfError "Signature image not provided.")
    else if slug = "annotate-pdf" then
      match options.get? "highlight_text" with
      | some v =>
        if v.truthy then do
          .ok ⟨.annotated (← v.expectStr), "annotated.pdf", "application/pdf"⟩
        else .error (.pdfError "highlight_text is required for annotate tool.")
      | none => .error (.pdfError "highlight_text is required for annotate tool.")
    else if slug = "redact-pdf" then
      match options.get? "redact_text" with
      | some v =>
        if v.truthy then do
          .ok ⟨.redacted (← v.expectStr), "redacted.pdf", "application/pdf"⟩
        else .error (.pdfError "redact_text is required for redact tool.")
      | none => .error (.pdfError "redact_text is required for redact tool.")
    else if slug = "pdf-to-word" then
      .ok ⟨.converted "pdf-to-word", "converted.docx",
        "application/vnd.openxmlformats-officedocument.wordprocessingml.document"⟩
    else if slug = "word-to-pdf" then
      .ok ⟨.converted "word-to-pdf", "converted.pdf", "application/pdf"⟩
    else if slug = "pdf-to-image" then do
      let fmt := pyLower (← (pyOrV (options.get? "image_format") (.str "png")).expectStr)
      let dpiV := pyOrV (some (options.getD "output_dpi" (.str "150"))) (.str "150")
      -- try int(dpi_str) except ValueError: 150
      let dpi := (pyIntOfVal dpiV).getD 150
      .ok (pdf_to_images first fmt dpi)
    else if slug = "image-to-pdf" then images_to_pdf inputFiles
    else if slug = "pdf-to-excel" then
      .ok ⟨.converted "pdf-to-excel", "converted.xlsx",
        "application/vnd.openxmlformats-officedocument.spreadsheetml.sheet"⟩
    else if slug = "excel-to-pdf" then
      .ok ⟨.converted "excel-to-pdf", "converted.pdf", "application/pdf"⟩
    else if slug = "pdf-to-powerpoint" then
      .ok ⟨.converted "pdf-to-powerpoint", "converted.pptx",
        "application/vnd.openxmlformats-officedocument.presentationml.presentation"⟩
    else if slug = "powerpoint-to-pdf" then
      .ok ⟨.converted "powerpoint-to-pdf", "converted.pdf", "application/pdf"⟩
    else if slug = "ocr-pdf" then do
      let lang ← (pyOrV (some (options.getD "ocr_lang" (.str "eng"))) (.str "eng")).expectStr
      ocr_pdf env first lang
    else if slug = "extract-text" then
      .ok ⟨.extractedText, "extracted.txt", "text/plain"⟩
    else if slug = "extract-images" then extract_images first
    else if slug = "deskew-pdf" then deskew_pdf env first
    else if slug = "crop-pdf" then
      match options.get? "crop_regions" with
      | some v =>
        if v.truthy then do crop_pdf_regions env first (← v.expectStr)
        else utilsCropFallback first options
      | none => utilsCropFallback first options
    else if slug = "resize-pdf" then do
      let size := pyUpper (← (options.getD "page_size" (.str "A4")).expectStr)
      .ok (resize_pdf first size)
    else if slug = "flatten-pdf" then .ok ⟨.flattened, "flattened.pdf", "application/pdf"⟩
    else if slug = "metadata-editor" then .ok (edit_metadata first options)
    else if slug = "fill-forms" then do
      let dataRaw ← (options.getD "form_data_json" (.str "\x7b\x7d")).expectStr
      if env.jsonLoadsOk dataRaw then
        .ok ⟨.formsFilled dataRaw, "filled.pdf", "application/pdf"⟩
      else .error (.pdfError "Invalid JSON in form_data_json")
    else if slug = "background-remover" then remove_background env first
    else .error (.pdfError ("Unknown tool slug: " ++ slug))

/-! ### `pdf_processor.py` — the second engine

The engine's handler-dictionary entry point is exercised by no claim; the
routines the claims cite are embedded standalone.  Each returns the
`(output_path, download_name)` pair with the path abstracted into the
symbolic output. -/

/-- `PDFProcessor._make_output_path` (lines 129-134), download-name part:
`f"{base.replace(' ', '_')}_{uid}{ext}"` with `uid = uuid4().hex[:8]`
supplied by the caller. -/
def makeOutputName (baseName uid ext : String) : String :=
  replaceChar baseName ' ' '_' ++ "_" ++ uid ++ ext

/-- `os.path.splitext(os.path.basename(p))[0]`, the recurring base-name
computation of the engine routines. -/
def engBaseName (p : String) : String := (splitExt (pyBasename p)).1

/-- `PDFProcessor._ensure_pdf` (lines 136-138). -/
def ensurePdf (path : String) : Except ProcErr Unit :=
  if pyEndsWith (pyLower path) ".pdf" then .ok ()
  else .error (.valueError "This tool requires a PDF input file.")

structure EngResult where
  out : ToolOutput
  dlName : String
deriving DecidableEq, Repr

/-- `PDFProcessor._compress_pdf` (lines 143-169): note that the routine
itself coerces the raw `quality` / `image_dpi` option values with `int()`
(and then passes neither to `doc.save`; they are computed regardless, and a
non-numeric string raises `ValueError` inside the routine). -/
def engCompressPdf (uid : String) (files : List FileBlob) (options : Options) :
    Except ProcErr EngResult :=
  match files with
  | [] => .error (.valueError "list index out of range")
  | inFile :: _ => do
    let _ ← ensurePdf inFile.path
    let quality ← match pyIntOfVal (options.getD "quality" (.int 75)) with
      | some n => Except.ok n
      | none => Except.error (.valueError "invalid literal for int with base 10")
    let imageDpi ← match pyIntOfVal (options.getD "image_dpi" (.int 120)) with
      | some n => Except.ok n
      | none => Except.error (.valueError "invalid literal for int with base 10")
    let baseName := engBaseName inFile.path
    -- quality/imageDpi are computed but unused by the doc.save call; carried
    -- in the output to record the coercion.
    .ok ⟨.engCompressed quality imageDpi,
         makeOutputName (baseName ++ "_compressed") uid ".pdf"⟩

/-- `PDFProcessor._merge_pdf` (lines 197-209): `_ensure_pdf` then append the
pages of each input, in input order. -/
def engMergePages : List FileBlob → Except ProcErr (List String)
  | [] => .ok []
  | f :: fs => do
    let _ ← ensurePdf f.path
    let rest ← engMergePages fs
    .ok (f.pages ++ rest)

def engMergePdf (uid : String) (files : List FileBlob) (options : Options) :
    Except ProcErr EngResult := do
  let pages ← engMergePages files
  .ok ⟨.merged pages, makeOutputName "merged" uid ".pdf"⟩

/-- `PDFProcessor._parse_page_range` (lines 248-264): unlike the utils
variant, a malformed part raises `ValueError` in both branches (no
try/except), and the range branch clamps with `max(1, start)` /
`min(total, end)` rather than filtering. -/
def parseRangeStep (totalPages : Nat) (acc : Option (List Nat)) (part0 : String) :
    Option (List Nat) :=
  match acc with
  | none => none
  | some pages =>
    let part := pyStrip part0
    if part = "" then some pages
    else if pyContains part '-' then
      let se := splitOnce part '-'
      match pyInt se.1, pyInt se.2 with
      | some s, some e =>
        let start := max 1 s
        let stop := min (totalPages : Int) e
        some ((pyRangeIncl start stop).foldl
          (fun st p => pageInsert (p - 1).toNat st) pages)
      | _, _ => none
    else
      match pyInt part with
      | none => none
      | some p =>
        some (if 1 ≤ p ∧ p ≤ (totalPages : Int) then pageInsert (p - 1).toNat pages else pages)

def parsePageRange (pageRange : String) (totalPages : Nat) : Option (List Nat) :=
  (pySplitOn pageRange ',').foldl (parseRangeStep totalPages) (some [])

/-- `PDFProcessor._rotate_pdf` (lines 266-282): the engine only reduces the
angle modulo 360 — there is no snapping to 0/90/180/270 here — and an
unparsable `angle` option raises `ValueError` out of the routine. -/
def engRotatePdf (uid : String) (files : List FileBlob) (options : Options) :
    Except ProcErr EngResult :=
  match files with
  | [] => .error (.valueError "list index out of range")
  | inFile :: _ => do
    let _ ← ensurePdf inFile.path
    let angle ← match pyIntOfVal (options.getD "angle" (.int 90)) with
      | some n => Except.ok (n % 360)
      | none => Except.error (.valueError "invalid literal for int with base 10")
    let baseName := engBaseName inFile.path
    .ok ⟨.rotated angle,
         makeOutputName (baseName ++ "_rotated_" ++ toString angle) uid ".pdf"⟩

/-- `PDFProcessor._ocr_pdf` (lines 960-992): when Tesseract is unavailable
(`_HAS_TESSERACT` false) the routine silently falls back to plain
`get_text()` extraction and returns a success-shaped `.txt` result; with
Tesseract it OCRs to text. -/
def engOcrPdf (env : Env) (uid : String) (files : List FileBlob) (options : Options) :
    Except ProcErr EngResult :=
  match files with
  | [] => .error (.valueError "list index out of range")
  | inFile :: _ => do
    let _ ← ensurePdf inFile.path
    let baseName := engBaseName inFile.path
    if ¬ env.tesseract then
      .ok ⟨.extractedText, makeOutputName (baseName ++ "_ocr_fallback") uid ".txt"⟩
    else
      .ok ⟨.ocr "default", makeOutputName (baseName ++ "_ocr") uid ".txt"⟩

/-! ### `app.py` — web layer -/

/-- An uploaded file part: the client-supplied filename plus the content the
processors would read from the saved copy. -/
structure Upload where
  filename : String
  pages : List String := []
  embeddedImages : Nat := 0
deriving DecidableEq, Repr

/-- `werkzeug.utils.secure_filename`: path separators become spaces,
whitespace runs are joined with underscores, characters outside
`[A-Za-z0-9_.-]` are dropped, and leading/trailing dots/underscores are
stripped.  (Unicode NFKD transliteration and the Windows reserved-name
check are not modelled; non-ASCII characters are simply dropped.) -/
def secureFilename (s : String) : String :=
  let replaced := s.data.map (fun c => if c = '/' ∨ c = '\\' then ' ' else c)
  let words := pySplitWs (String.mk replaced)
  let joined := joinWith "_" words
  let keep : Char → Bool := fun c =>
    ('A' ≤ c ∧ c ≤ 'Z') ∨ ('a' ≤ c ∧ c ≤ 'z') ∨ ('0' ≤ c ∧ c ≤ '9') ∨
    c = '_' ∨ c = '.' ∨ c = '-'
  let kept := joined.data.filter keep
  let stripEdge : Char → Bool := fun c => c = '.' ∨ c = '_'
  ⟨((kept.dropWhile stripEdge).reverse.dropWhile stripEdge).reverse⟩

/-- `app.py _save_uploads` (lines 271-284): skip parts without a usable
filename, save the rest under `f"{uid}_{filename}"`. -/
def saveUploads (env : Env) (files : List Upload) : List FileBlob :=
  (files.enum.filterMap (fun iu =>
    if iu.2.filename = "" then none
    else
      let filename := secureFilename iu.2.filename
      if filename = "" then none
      else some { path := env.uidFor iu.1 ++ "_" ++ filename,
                  pages := iu.2.pages,
                  embeddedImages := iu.2.embeddedImages }))

/-- Responses the `process_tool` route can produce: a flash message followed
by a redirect, or a file download (the downloaded artifact is carried
symbolically). -/
inductive AppResponse
  | redirectFlash (endpoint msg category : String)
  | fileDownload (out : ToolOutput) (downloadName mime : String)
deriving DecidableEq, Repr

/-- The HTTP status Flask produces for each response shape: `redirect` is
302, `send_file` is 200. -/
def responseStatus : AppResponse → Nat
  | .redirectFlash _ _ _ => 302
  | .fileDownload _ _ _ => 200

/-- `app.py process_tool` (lines 401-444), the `POST /tool/<slug>/process`
route: validate the slug against the app's `TOOLS` list, save uploads, map
options, call `pdf.process`, catching `PDFProcessorError` and any other
exception as flash+redirect. -/
def processTool (env : Env) (slug : String) (files : List Upload) (form : Form) :
    AppResponse :=
  match appLookupTool slug with
  | none => .redirectFlash "index" "Unknown tool." "error"
  | some _ =>
    match files with
    | [] => .redirectFlash "tool_page" "Please upload at least one file." "error"
    | f0 :: _ =>
      if f0.filename = "" then
        .redirectFlash "tool_page" "Please upload at least one file." "error"
      else
        let inputPaths := saveUploads env files
        if inputPaths = [] then
          .redirectFlash "tool_page" "Failed to save uploaded files." "error"
        else
          let options := mapOptions slug form
          let result :=
            if slug = "merge-pdf" ∨ slug = "image-to-pdf" then
              utilsProcess env slug inputPaths options
            else
              utilsProcess env slug (inputPaths.take 1) options
          match result with
          | .error (.pdfError msg) => .redirectFlash "tool_page" msg "error"
          | .error _ =>
            .redirectFlash "tool_page"
              "Something went wrong while processing your file." "error"
          | .ok r =>
            let keep := match options.get? "keep_filename" with
              | some v => v.truthy
              | none => false
            let dlName :=
              if keep && f0.filename != "" then
                (splitExt (secureFilename f0.filename)).1 ++ (splitExt r.name).2
              else r.name
            .fileDownload r.out dlName r.mime

/-- `app.py ask_ai` (lines 31-68): with no `HF_TOKEN` the function returns an
error *string*; the network call and its response are abstracted as the
`netResult` parameter. -/
def askAi (hfToken : Option String) (netResult : String) (prompt : String) : String :=
  let tokenTruthy := match hfToken with
    | some t => t ≠ ""
    | none => false
  if !tokenTruthy then "AI Error: HF_TOKEN not configured on server."
  else netResult

/-- A JSON response from the AI endpoints: field list plus HTTP status. -/
structure JsonResponse where
  fields : List (String × String)
  status : Nat
deriving DecidableEq, Repr

/-- `app.py ai_summarizer` (lines 474-485): `jsonify({"summary": ...})` with
the default 200 status — also in the no-token case, where the AI error
string is embedded in the success-shaped payload. -/
def aiSummarizer (hfToken : Option String) (netResult : String)
    (hasFile : Bool) (pdfText : String) : JsonResponse :=
  if ¬ hasFile then ⟨[("error", "No file uploaded")], 200⟩
  else ⟨[("summary", askAi hfToken netResult ("Summarize this PDF:\n" ++ pyTake pdfText 6000))], 200⟩

/-! ### Shared concrete values for witnesses and counterexamples -/

/-- An environment with every optional capability present. -/
def envAll : Env :=
  { tesseract := true, rembg := true, jsonLoadsOk := fun _ => true,
    jsonIsObject := fun _ => true, pathExists := fun _ => true,
    uidFor := fun _ => "u0" }

/-- An environment with every optional capability absent. -/
def envNoDeps : Env :=
  { tesseract := false, rembg := false, jsonLoadsOk := fun _ => false,
    jsonIsObject := fun _ => false, pathExists := fun _ => false,
    uidFor := fun _ => "u0" }

/-- A one-page PDF input file. -/
def samplePdf : FileBlob := { path := "a.pdf", pages := ["p1"] }

/-- A second one-page PDF input file. -/
def samplePdfB : FileBlob := { path := "b.pdf", pages := ["q1"] }

/-- A one-page uploaded file. -/
def sampleUpload : Upload := { filename := "a.pdf", pages := ["p1"] }

/-- A second one-page uploaded file. -/
def sampleUploadB : Upload := { filename := "b.pdf", pages := ["q1"] }

/-! ### Invariants of the page-range parsers (claim C10) -/

theorem pyRangeIncl_mem {a b p : Int} (h : p ∈ pyRangeIncl a b) : a ≤ p ∧ p ≤ b := by
  unfold pyRangeIncl at h
  obtain ⟨i, hi, rfl⟩ := List.mem_map.mp h
  rw [List.mem_range] at hi
  omega

/-- The combined invariant carried through the parsing folds. -/
def PageAcc (total : Nat) (l : List Nat) : Prop :=
  l.Sorted (· < ·) ∧ ∀ x ∈ l, x < total

theorem pageInsert_acc {total p : Nat} {l : List Nat} (h : PageAcc total l)
    (hp : p < total) : PageAcc total (pageInsert p l) := by
  unfold pageInsert
  by_cases hm : p ∈ l
  · rw [if_pos hm]; exact h
  · rw [if_neg hm]
    obtain ⟨hsort, hbound⟩ := h
    have hle : (l.orderedInsert (· ≤ ·) p).Sorted (· ≤ ·) :=
      List.Sorted.orderedInsert p l (hsort.le_of_lt)
    have hperm := List.perm_orderedInsert (· ≤ ·) p l
    have hnodup : (l.orderedInsert (· ≤ ·) p).Nodup :=
      hperm.nodup_iff.mpr (List.nodup_cons.mpr ⟨hm, hsort.nodup⟩)
    refine ⟨hle.lt_of_le hnodup, ?_⟩
    intro x hx
    rcases (List.mem_orderedInsert _).mp hx with rfl | hx
    · exact hp
    · exact hbound x hx

/-- The conditional-insert loop of the utils parser preserves the invariant. -/
theorem utilsInsertFold_acc (total : Nat) (l : List Int) :
    ∀ s : List Nat, PageAcc total s →
      PageAcc total (l.foldl
        (fun s p => if 1 ≤ p ∧ p ≤ (total : Int) then pageInsert (p - 1).toNat s else s) s) := by
  induction l with
  | nil => intro s hs; exact hs
  | cons p rest ih =>
    intro s hs
    rw [List.foldl_cons]
    refine ih _ ?_
    by_cases hc : 1 ≤ p ∧ p ≤ (total : Int)
    · rw [if_pos hc]; exact pageInsert_acc hs (by omega)
    · rw [if_neg hc]; exact hs

/-- The unconditional-insert loop of the engine parser preserves the
invariant, given that every inserted page number is within range. -/
theorem engInsertFold_acc (total : Nat) (l : List Int)
    (hl : ∀ p ∈ l, 1 ≤ p ∧ p ≤ (total : Int)) :
    ∀ s : List Nat, PageAcc total s →
      PageAcc total (l.foldl (fun st p => pageInsert (p - 1).toNat st) s) := by
  induction l with
  | nil => intro s hs; exact hs
  | cons p rest ih =>
    intro s hs
    rw [List.foldl_cons]
    refine ih (fun q hq => hl q (List.mem_cons_of_mem _ hq)) _ ?_
    have hp := hl p (List.mem_cons_self _ _)
    exact pageInsert_acc hs (by omega)

theorem pageRangeStep_acc (total : Nat) (pages : List Nat) (part : String)
    (h : PageAcc total pages) :
    ∀ s, pageRangeStep total (some pages) part = some s → PageAcc total s := by
  intro s hs
  simp only [pageRangeStep] at hs
  by_cases hdash : pyContains part '-'
  · rw [if_pos hdash] at hs
    rcases hstart : (if (splitOnce part '-').1 = "" then some 1
        else pyInt (splitOnce part '-').1) with _ | start
    · rw [hstart] at hs; simp at hs
    · rcases hstop : (if (splitOnce part '-').2 = "" then some (total : Int)
          else pyInt (splitOnce part '-').2) with _ | stop
      · rw [hstart, hstop] at hs; simp at hs
      · rw [hstart, hstop] at hs
        simp only [Option.some.injEq] at hs
        subst hs
        exact utilsInsertFold_acc total _ pages h
  · rw [if_neg hdash] at hs
    rcases hint : pyInt part with _ | p
    · rw [hint] at hs
      simp only [Option.some.injEq] at hs
      subst hs; exact h
    · rw [hint] at hs
      simp only [Option.some.injEq] at hs
      subst hs
      by_cases hc : 1 ≤ p ∧ p ≤ (total : Int)
      · rw [if_pos hc]; exact pageInsert_acc h (by omega)
      · rw [if_neg hc]; exact h

theorem parseRangeStep_acc (total : Nat) (pages : List Nat) (part0 : String)
    (h : PageAcc total pages) :
    ∀ s, parseRangeStep total (some pages) part0 = some s → PageAcc total s := by
  intro s hs
  simp only [parseRangeStep] at hs
  by_cases hempty : pyStrip part0 = ""
  · rw [if_pos hempty] at hs
    simp only [Option.some.injEq] at hs
    subst hs; exact h
  · rw [if_neg hempty] at hs
    by_cases hdash : pyContains (pyStrip part0) '-'
    · rw [if_pos hdash] at hs
      rcases hstart : pyInt (splitOnce (pyStrip part0) '-').1 with _ | st
      · rw [hstart] at hs; simp at hs
      · rcases hstop : pyInt (splitOnce (pyStrip part0) '-').2 with _ | en
        · rw [hstart, hstop] at hs; simp at hs
        · rw [hstart, hstop] at hs
          simp only [Option.some.injEq] at hs
          subst hs
          refine engInsertFold_acc total _ ?_ pages h
          intro p hmem
          have hb := pyRangeIncl_mem hmem
          refine ⟨?_, ?_⟩
          · have : (max 1 st : Int) ≤ p := hb.1
            omega
          · have : p ≤ (min (total : Int) en : Int) := hb.2
            omega
    · rw [if_neg hdash] at hs
      rcases hint : pyInt (pyStrip part0) with _ | p
      · rw [hint] at hs; simp at hs
      · rw [hint] at hs
        simp only [Option.some.injEq] at hs
        subst hs
        by_cases hc : 1 ≤ p ∧ p ≤ (total : Int)
        · rw [if_pos hc]; exact pageInsert_acc h (by omega)
        · rw [if_neg hc]; exact h

theorem foldl_pageRangeStep_acc (total : Nat) (parts : List String) :
    ∀ acc, (∀ t, acc = some t → PageAcc total t) →
      ∀ s, parts.foldl (pageRangeStep total) acc = some s → PageAcc total s := by
  induction parts with
  | nil => intro acc h s hs; exact h s hs
  | cons part rest ih =>
    intro acc h s hs
    rw [List.foldl_cons] at hs
    refine ih _ ?_ s hs
    intro t ht
    match acc with
    | none => simp [pageRangeStep] at ht
    | some pages => exact pageRangeStep_acc total pages part (h pages rfl) t ht

theorem foldl_parseRangeStep_acc (total : Nat) (parts : List String) :
    ∀ acc, (∀ t, acc = some t → PageAcc total t) →
      ∀ s, parts.foldl (parseRangeStep total) acc = some s → PageAcc total s := by
  induction parts with
  | nil => intro acc h s hs; exact h s hs
  | cons part rest ih =>
    intro acc h s hs
    rw [List.foldl_cons] at hs
    refine ih _ ?_ s hs
    intro t ht
    match acc with
    | none => simp [parseRangeStep] at ht
    | some pages => exact parseRangeStep_acc total pages part (h pages rfl) t ht

/-- C10: whenever either page-range parser returns a list, that list is
strictly increasing (hence duplicate-free) and every element lies in
`[0, n)`; and for the empty specification the utils parser returns exactly
`[0, 1, ..., n-1]`. -/
theorem pageRange_parsers_invariants
    (spec : String) (n : Nat) (l : List Nat) (spec2 : String) (m : Nat) (l2 : List Nat)
    (h1 : pageRangesToList spec n = some l)
    (h2 : parsePageRange spec2 m = some l2) :
    (l.Sorted (· < ·) ∧ l.Nodup ∧ ∀ x ∈ l, x < n) ∧
    (l2.Sorted (· < ·) ∧ l2.Nodup ∧ ∀ x ∈ l2, x < m) ∧
    (∀ k, pageRangesToList "" k = some (List.range k)) := by
  have base : ∀ (total : Nat) (t : List Nat), (some [] : Option (List Nat)) = some t →
      PageAcc total t := by
    intro total t ht
    simp only [Option.some.injEq] at ht
    subst ht
    exact ⟨List.sorted_nil, by simp⟩
  refine ⟨?_, ?_, fun k => by simp [pageRangesToList]⟩
  · unfold pageRangesToList at h1
    by_cases hspec : spec = ""
    · rw [if_pos hspec] at h1
      simp only [Option.some.injEq] at h1
      subst h1
      exact ⟨List.sorted_lt_range n, List.nodup_range n, fun x hx => List.mem_range.mp hx⟩
    · rw [if_neg hspec] at h1
      have hacc := foldl_pageRangeStep_acc n _ (some []) (base n) l h1
      exact ⟨hacc.1, hacc.1.nodup, hacc.2⟩
  · unfold parsePageRange at h2
    have hacc := foldl_parseRangeStep_acc m _ (some []) (base m) l2 h2
    exact ⟨hacc.1, hacc.1.nodup, hacc.2⟩

/-- Witness for C10 at the concrete spec "1-3,5" over 10 pages. -/
theorem pageRange_parsers_invariants_witness :
    ([0, 1, 2, 4] : List Nat).Sorted (· < ·) ∧ (∀ x ∈ ([0, 1, 2, 4] : List Nat), x < 10) := by
  have h := pageRange_parsers_invariants "1-3,5" 10 [0, 1, 2, 4] "1-3,5" 10 [0, 1, 2, 4]
    (by decide) (by decide)
  exact ⟨h.1.1, h.1.2.2⟩

/-- A PNG image input file, for the background-remover tool. -/
def samplePng : FileBlob := { path := "img.png", pages := [] }

/-! ### Compression level normalization (claim C4) -/

/-- C4 (amended): the compress-tool level strings "1", "2" and "3" map
deterministically to the three pairwise-distinct internal tiers "high",
"medium" and "low"; a value outside the enumeration (such as "9") is not
rejected but silently falls back to "medium". -/
theorem compress_level_tiers (s : String) :
    normalizeCompressionLevel "1" = "high" ∧
    normalizeCompressionLevel "2" = "medium" ∧
    normalizeCompressionLevel "3" = "low" ∧
    ("high" : String) ≠ "medium" ∧ ("medium" : String) ≠ "low" ∧ ("high" : String) ≠ "low" ∧
    normalizeCompressionLevel "9" = "medium" ∧
    (normalizeCompressionLevel s = "high" ∨ normalizeCompressionLevel s = "medium" ∨
      normalizeCompressionLevel s = "low") := by
  refine ⟨by decide, by decide, by decide, by decide, by decide, by decide, by decide, ?_⟩
  simp only [normalizeCompressionLevel]
  split_ifs <;> simp

/-- C4 counterexample: the out-of-enum level "9" is processed, not rejected —
it lands on the same tier as "2". -/
theorem compress_level_9_counterexample :
    utilsProcess envAll "compress-pdf" [samplePdf] [("compression_level", OptVal.str "9")] =
      .ok ⟨.compressed "medium", "compressed.pdf", "application/pdf"⟩ ∧
    normalizeCompressionLevel "9" = normalizeCompressionLevel "2" := by decide

/-! ### Rotate angle normalization (claim C2) -/

theorem rotateNormalize_emod (n : Int) : rotateNormalize n = rotateNormalize (n % 360) := by
  unfold rotateNormalize
  rw [Int.emod_emod_of_dvd _ dvd_rfl]

set_option maxRecDepth 4000 in
/-- The snap specification checked on every residue: the result is one of the
four allowed angles, and among them it minimises the linear distance to the
residue, with ties resolved toward the smaller angle. -/
theorem rotateNormalize_ball : ∀ m : Nat, m < 360 →
    ((rotateNormalize m = 0 ∨ rotateNormalize m = 90 ∨ rotateNormalize m = 180 ∨
        rotateNormalize m = 270) ∧
      ∀ c ∈ ([0, 90, 180, 270] : List Int),
        (rotateNormalize m - (m : Int)).natAbs < (c - (m : Int)).natAbs ∨
        ((rotateNormalize m - (m : Int)).natAbs = (c - (m : Int)).natAbs ∧
          rotateNormalize m ≤ c)) := by
  decide

/-- C2 (amended): the utils `rotate_pdf` snaps every integer angle to the
element of {0, 90, 180, 270} nearest to the angle reduced modulo 360, with
ties broken toward the *smaller* value (45 snaps to 0, not 90); no integer
angle is rejected.  The engine `_rotate_pdf` does not snap at all: it only
reduces the parsed angle modulo 360. -/
theorem rotate_angle_normalization (n : Int) (uid : String) (f : FileBlob) (m : Int)
    (hf : pyEndsWith (pyLower f.path) ".pdf" = true) :
    (rotateNormalize n = 0 ∨ rotateNormalize n = 90 ∨ rotateNormalize n = 180 ∨
      rotateNormalize n = 270) ∧
    (∀ c ∈ ([0, 90, 180, 270] : List Int),
      (rotateNormalize n - n % 360).natAbs < (c - n % 360).natAbs ∨
      ((rotateNormalize n - n % 360).natAbs = (c - n % 360).natAbs ∧
        rotateNormalize n ≤ c)) ∧
    engRotatePdf uid [f] [("angle", OptVal.int m)] =
      .ok ⟨.rotated (m % 360),
           makeOutputName (engBaseName f.path ++ "_rotated_" ++ toString (m % 360)) uid ".pdf"⟩ := by
  have h0 : 0 ≤ n % 360 := Int.emod_nonneg n (by norm_num)
  have h1 : n % 360 < 360 := Int.emod_lt_of_pos n (by norm_num)
  obtain ⟨k, hk⟩ : ∃ k : Nat, n % 360 = (k : Int) :=
    ⟨(n % 360).toNat, (Int.toNat_of_nonneg h0).symm⟩
  have hlt : k < 360 := by omega
  have hball := rotateNormalize_ball k hlt
  have hrw : rotateNormalize n = rotateNormalize k := by
    rw [rotateNormalize_emod n, hk]
  refine ⟨?_, ?_, ?_⟩
  · rw [hrw]; exact hball.1
  · intro c hc
    rw [hrw, hk]
    exact hball.2 c hc
  · simp only [engRotatePdf, ensurePdf, hf, if_true, Options.getD, Options.get?,
      List.find?, beq_self_eq_true, Option.map_some', Option.getD_some, pyIntOfVal]
    rfl

/-- C2 counterexample: 45 snaps to 0, not to 90 as the claimed round-up
tie-break would require. -/
theorem rotate_45_snaps_down : rotateNormalize 45 = 0 ∧ rotateNormalize 45 ≠ 90 := by decide

/-- Witness for C2 at angle 45 and a concrete engine call. -/
theorem rotate_angle_normalization_witness :
    pyEndsWith (pyLower samplePdf.path) ".pdf" = true ∧
    (rotateNormalize 45 = 0 ∨ rotateNormalize 45 = 90 ∨ rotateNormalize 45 = 180 ∨
      rotateNormalize 45 = 270) :=
  ⟨by decide, (rotate_angle_normalization 45 "u0" samplePdf 45 (by decide)).1⟩

/-! ### Merge order (claim C9) -/

theorem foldl_pages_append (paths : List FileBlob) :
    ∀ acc : List String,
      paths.foldl (fun acc f => acc ++ f.pages) acc = acc ++ (paths.map (·.pages)).flatten := by
  induction paths with
  | nil => intro acc; simp
  | cons p rest ih =>
    intro acc
    simp [List.foldl_cons, ih, List.append_assoc]

/-- The utils merge branch on any non-empty input list. -/
theorem utils_merge_ok (env : Env) (first : FileBlob) (rest : List FileBlob) (opts : Options) :
    utilsProcess env "merge-pdf" (first :: rest) opts =
      .ok ⟨.merged (((first :: rest).map (·.pages)).flatten), "merged.pdf", "application/pdf"⟩ := by
  have hslug : pyLower (pyStrip "merge-pdf") = "merge-pdf" := by decide
  simp only [utilsProcess, hslug, if_true, merge_pdfs]
  rw [foldl_pages_append]
  simp

theorem engMergePages_ok (files : List FileBlob)
    (h : ∀ g ∈ files, pyEndsWith (pyLower g.path) ".pdf" = true) :
    engMergePages files = .ok ((files.map (·.pages)).flatten) := by
  induction files with
  | nil => simp [engMergePages]
  | cons f fs ih =>
    have hf := h f (List.mem_cons_self _ _)
    have hrest := ih (fun g hg => h g (List.mem_cons_of_mem _ hg))
    simp only [engMergePages, ensurePdf, hf, if_true, hrest, List.map_cons, List.flatten_cons]
    rfl

/-- C9: merging preserves input order — the output page sequence is the
concatenation of the inputs' page sequences, in both processors, and the
end-to-end merge route on two single-page uploads downloads a document whose
pages are exactly [A's page, B's page]. -/
theorem merge_preserves_order
    (env : Env) (first : FileBlob) (rest : List FileBlob) (opts : Options)
    (uid : String) (files2 : List FileBlob) (opts2 : Options)
    (hpdf : ∀ g ∈ files2, pyEndsWith (pyLower g.path) ".pdf" = true)
    (envA : Env) (A B : Upload)
    (hA : A.filename ≠ "") (hA2 : secureFilename A.filename ≠ "")
    (hB : B.filename ≠ "") (hB2 : secureFilename B.filename ≠ "") :
    utilsProcess env "merge-pdf" (first :: rest) opts =
      .ok ⟨.merged (((first :: rest).map (·.pages)).flatten), "merged.pdf", "application/pdf"⟩ ∧
    engMergePdf uid files2 opts2 =
      .ok ⟨.merged ((files2.map (·.pages)).flatten), makeOutputName "merged" uid ".pdf"⟩ ∧
    processTool envA "merge-pdf" [A, B] [] =
      .fileDownload (.merged (A.pages ++ B.pages)) "merged.pdf" "application/pdf" := by
  refine ⟨utils_merge_ok env first rest opts, ?_, ?_⟩
  · simp only [engMergePdf, engMergePages_ok files2 hpdf]
    rfl
  · have hlook : appLookupTool "merge-pdf" = some ⟨"merge-pdf", "Merge PDF"⟩ := by decide
    have hmo : mapOptions "merge-pdf" ([] : Form) = [] := by decide
    have hsave : saveUploads envA [A, B] =
        [{ path := envA.uidFor 0 ++ "_" ++ secureFilename A.filename, pages := A.pages,
           embeddedImages := A.embeddedImages },
         { path := envA.uidFor 1 ++ "_" ++ secureFilename B.filename, pages := B.pages,
           embeddedImages := B.embeddedImages }] := by
      simp [saveUploads, List.enum, List.enumFrom, hA, hA2, hB, hB2]
    simp only [processTool, hlook, hsave, hmo]
    rw [if_neg hA]
    simp [utils_merge_ok, Options.get?, List.find?]

/-- Witness for C9 on two concrete single-page files. -/
theorem merge_preserves_order_witness :
    utilsProcess envAll "merge-pdf" [samplePdf, samplePdfB] [] =
      .ok ⟨.merged ["p1", "q1"], "merged.pdf", "application/pdf"⟩ ∧
    processTool envAll "merge-pdf" [sampleUpload, sampleUploadB] [] =
      .fileDownload (.merged ["p1", "q1"]) "merged.pdf" "application/pdf" := by
  have h := merge_preserves_order envAll samplePdf [samplePdfB] [] "u0" [] []
    (by intro g hg; cases hg) envAll sampleUpload sampleUploadB
    (by decide) (by decide) (by decide) (by decide)
  exact ⟨by simpa using h.1, by simpa using h.2.2⟩

/-! ### Unknown tool handling (claim C1) -/

/-- C1 (amended): a request for a tool identifier that is not a registered
slug is answered with a flash message and a redirect to the index (HTTP
302), not with a `bad-input` error envelope and status 400; no exception
escapes — `process_tool` catches `PDFProcessorError` and any other
exception. -/
theorem unknown_slug_redirects (env : Env) (slug : String) (files : List Upload) (form : Form)
    (h : slug ∉ appToolSlugs) :
    processTool env slug files form = .redirectFlash "index" "Unknown tool." "error" := by
  have hlook : appLookupTool slug = none := by
    unfold appLookupTool
    apply List.find?_eq_none.mpr
    intro t ht
    simp only [beq_iff_eq]
    intro he
    exact h (he ▸ List.mem_map_of_mem (·.slug) ht)
  unfold processTool
  rw [hlook]

/-- C1 counterexample: the response to an unknown tool id is a 302 redirect,
not a 400 error envelope. -/
theorem unknown_tool_not_400 :
    processTool envAll "unknown-tool-xyz" [sampleUpload] [] =
      .redirectFlash "index" "Unknown tool." "error" ∧
    responseStatus (processTool envAll "unknown-tool-xyz" [sampleUpload] []) = 302 ∧
    responseStatus (processTool envAll "unknown-tool-xyz" [sampleUpload] []) ≠ 400 := by
  decide

/-- Witness for C1 at the concrete unregistered id "unknown-tool-xyz". -/
theorem unknown_slug_redirects_witness :
    "unknown-tool-xyz" ∉ appToolSlugs ∧
    processTool envAll "unknown-tool-xyz" [sampleUpload] [] =
      .redirectFlash "index" "Unknown tool." "error" :=
  ⟨by decide, unknown_slug_redirects envAll "unknown-tool-xyz" [sampleUpload] [] (by decide)⟩

/-! ### Non-numeric rotate angle (claim C3) -/

/-- C3 (amended): supplying a non-numeric string as the rotate angle does not
reject the request — `_map_options` substitutes 0 after the failed
`int()` parse, and the processor then rotates by the substitute angle 0. -/
theorem rotate_nonnumeric_option (s : String) (h : pyInt s = none) (env : Env) (f : FileBlob) :
    mapOptions "rotate-pdf" [("rotation_angle", s)] = [("angle", OptVal.int 0)] ∧
    utilsProcess env "rotate-pdf" [f] [("angle", OptVal.int 0)] =
      .ok ⟨.rotated 0, "rotated.pdf", "application/pdf"⟩ := by
  constructor
  · have hps : pyStrip "" = "" := by decide
    simp [mapOptions, Form.getD, Form.get?, List.find?, dictSet, h, hps]
  · have hslug : pyLower (pyStrip "rotate-pdf") = "rotate-pdf" := by decide
    have hint0 : pyInt "0" = some 0 := by decide
    have hrot : rotateNormalize 0 = 0 := by decide
    simp [utilsProcess, hslug, Options.get?, List.find?, pyOrV, OptVal.truthy,
      pyIntOfVal, hint0, rotate_pdf, hrot]

/-- C3 counterexample: the full pipeline on angle "ninety" succeeds with the
substitute angle 0 instead of returning an unsupported-option error. -/
theorem rotate_ninety_not_rejected :
    (mapOptions "rotate-pdf" [("rotation_angle", "ninety")]).get? "angle" =
      some (OptVal.int 0) ∧
    utilsProcess envAll "rotate-pdf" [samplePdf]
        (mapOptions "rotate-pdf" [("rotation_angle", "ninety")]) =
      .ok ⟨.rotated 0, "rotated.pdf", "application/pdf"⟩ := by
  decide

/-- Witness for C3 at the non-numeric string "ninety". -/
theorem rotate_nonnumeric_option_witness :
    pyInt "ninety" = none ∧
    mapOptions "rotate-pdf" [("rotation_angle", "ninety")] = [("angle", OptVal.int 0)] :=
  ⟨by decide, (rotate_nonnumeric_option "ninety" (by decide) envAll samplePdf).1⟩

/-! ### Missing optional dependencies (claim C5) -/

/-- C5 (amended): the utils processor raises an explicit `PDFProcessorError`
for a missing Tesseract binary (OCR) and a missing rembg package; but the
engine `_ocr_pdf` silently falls back to plain text extraction and still
returns a success-shaped result, and the AI summarizer endpoint embeds the
missing-token error string inside an HTTP-200 success payload. -/
theorem missing_dependency_behaviour
    (env : Env) (f : FileBlob) (rest : List FileBlob) (lang : String)
    (henv : env.tesseract = false)
    (env2 : Env) (f2 : FileBlob) (rest2 : List FileBlob) (opts2 : Options)
    (henv2 : env2.rembg = false) (hext : pyLower (splitExt f2.path).2 = ".png")
    (env3 : Env) (uid : String) (f3 : FileBlob) (rest3 : List FileBlob) (opts3 : Options)
    (henv3 : env3.tesseract = false) (hpdf3 : pyEndsWith (pyLower f3.path) ".pdf" = true)
    (netResult text : String) :
    utilsProcess env "ocr-pdf" (f :: rest) [("ocr_lang", OptVal.str lang)] =
      .error (.pdfError
        "Tesseract OCR binary not found on server. Install it to enable OCR functionality.") ∧
    utilsProcess env2 "background-remover" (f2 :: rest2) opts2 =
      .error (.pdfError
        "Background remover requires the \x27rembg\x27 package. Add \x27rembg\x27 to requirements.txt and deploy again.") ∧
    engOcrPdf env3 uid (f3 :: rest3) opts3 =
      .ok ⟨.extractedText, makeOutputName (engBaseName f3.path ++ "_ocr_fallback") uid ".txt"⟩ ∧
    aiSummarizer none netResult true text =
      ⟨[("summary", "AI Error: HF_TOKEN not configured on server.")], 200⟩ := by
  refine ⟨?_, ?_, ?_, ?_⟩
  · have hslug : pyLower (pyStrip "ocr-pdf") = "ocr-pdf" := by decide
    by_cases hl : lang = "" <;>
      simp [utilsProcess, hslug, hl, Options.getD, Options.get?, List.find?, pyOrV,
        OptVal.truthy, OptVal.expectStr, ocr_pdf, henv] <;> try rfl
  · have hslug2 : pyLower (pyStrip "background-remover") = "background-remover" := by decide
    simp [utilsProcess, hslug2, remove_background, hext, henv2]
  · simp only [engOcrPdf, ensurePdf, hpdf3, if_true, henv3]
    rfl
  · rfl

/-- C5 counterexample: with Tesseract absent the engine OCR routine returns
a success-shaped fallback text extraction, not a missing-dependency error. -/
theorem ocr_fallback_counterexample :
    engOcrPdf envNoDeps "u0" [samplePdf] [] =
      .ok ⟨.extractedText, "a_ocr_fallback_u0.txt"⟩ ∧
    (engOcrPdf envNoDeps "u0" [samplePdf] []).isOk = true := by
  decide

/-- Witness for C5 under the no-dependency environment. -/
theorem missing_dependency_behaviour_witness :
    envNoDeps.tesseract = false ∧
    utilsProcess envNoDeps "ocr-pdf" [samplePdf] [("ocr_lang", OptVal.str "eng")] =
      .error (.pdfError
        "Tesseract OCR binary not found on server. Install it to enable OCR functionality.") :=
  ⟨rfl, (missing_dependency_behaviour envNoDeps samplePdf [] "eng" rfl
    envNoDeps samplePng [] [] rfl (by decide)
    envNoDeps "u0" samplePdf [] [] rfl (by decide) "netres" "text").1⟩

/-! ### Coercion inside conversion routines (claim C6) -/

/-- C6 (amended): option coercion is *not* resolved before dispatch — the
engine conversion routines themselves coerce raw string option values with
`int()`: `_compress_pdf` parses its `quality` option and `_rotate_pdf` its
`angle` option inside the routine, and a failed parse surfaces as a
`ValueError` from within the routine. -/
theorem engine_routines_coerce (s : String) (n : Int) (h : pyInt s = some n)
    (uid : String) (f : FileBlob) (hf : pyEndsWith (pyLower f.path) ".pdf" = true) :
    engCompressPdf uid [f] [("quality", OptVal.str s)] =
      .ok ⟨.engCompressed n 120,
           makeOutputName (engBaseName f.path ++ "_compressed") uid ".pdf"⟩ ∧
    engRotatePdf uid [f] [("angle", OptVal.str s)] =
      .ok ⟨.rotated (n % 360),
           makeOutputName (engBaseName f.path ++ "_rotated_" ++ toString (n % 360)) uid ".pdf"⟩ := by
  constructor
  · simp only [engCompressPdf, ensurePdf, hf, if_true, Options.getD, Options.get?,
      List.find?, beq_self_eq_true, Option.map_some', Option.getD_some, pyIntOfVal, h]
    rfl
  · simp only [engRotatePdf, ensurePdf, hf, if_true, Options.getD, Options.get?,
      List.find?, beq_self_eq_true, Option.map_some', Option.getD_some, pyIntOfVal, h]
    rfl

/-- C6 counterexample: `_compress_pdf` consumes a raw string quality option,
coercing "50" to 50 inside the routine, and a non-numeric raw value fails
*inside* the routine (a `ValueError`), not before dispatch. -/
theorem compress_quality_coerced_in_routine :
    engCompressPdf "u0" [samplePdf] [("quality", OptVal.str "50")] =
      .ok ⟨.engCompressed 50 120, "a_compressed_u0.pdf"⟩ ∧
    engCompressPdf "u0" [samplePdf] [("quality", OptVal.str "abc")] =
      .error (.valueError "invalid literal for int with base 10") := by
  decide

/-- Witness for C6 at the numeric string "50". -/
theorem engine_routines_coerce_witness :
    pyInt "50" = some 50 ∧
    engCompressPdf "u0" [samplePdf] [("quality", OptVal.str "50")] =
      .ok ⟨.engCompressed 50 120, "a_compressed_u0.pdf"⟩ :=
  ⟨by decide, by
    have h := (engine_routines_coerce "50" 50 (by decide) "u0" samplePdf (by decide)).1
    simpa using h⟩

/-! ### Slug matching (claim C7) -/

/-- C7 (amended): the `SLUG_TO_TOOL` lookup is exact and case-sensitive —
any resolved tool's slug equals the queried string — but the utils
processor strips and lowercases the slug before dispatch, so slugs
differing only in letter case (such as "Merge-PDF") dispatch identically
to the registered lowercase slug. -/
theorem slug_lookup_exact (t : String) (tool : Tool) (h : slugToTool t = some tool)
    (env : Env) (files : List FileBlob) (opts : Options) :
    tool.slug = t ∧
    utilsProcess env "Merge-PDF" files opts = utilsProcess env "merge-pdf" files opts := by
  constructor
  · have h2 : List.find? (fun tl => tl.slug == t) toolsPyTools = some tool := h
    have h3 := List.find?_some h2
    exact eq_of_beq h3
  · rfl

/-- C7 counterexample: "Merge-PDF" differs from every registered slug (the
registry lookup returns none, and there is no alias table in the code), yet
the utils processor dispatches it to the merge tool. -/
theorem case_variant_slug_dispatches :
    utilsProcess envAll "Merge-PDF" [samplePdf] [] =
      .ok ⟨.merged ["p1"], "merged.pdf", "application/pdf"⟩ ∧
    ("Merge-PDF" : String) ≠ "merge-pdf" ∧
    slugToTool "Merge-PDF" = none := by
  decide

/-- Witness for C7 at the registered slug "merge-pdf". -/
theorem slug_lookup_exact_witness :
    slugToTool "merge-pdf" = some ⟨"merge-pdf", "Merge PDF"⟩ ∧
    (⟨"merge-pdf", "Merge PDF"⟩ : Tool).slug = "merge-pdf" :=
  ⟨by decide,
   (slug_lookup_exact "merge-pdf" ⟨"merge-pdf", "Merge PDF"⟩ (by decide) envAll [] []).1⟩

/-! ### Unknown form keys are dropped (claim C8) -/

/-- C8: unknown form keys are silently dropped — for any tool, two raw form
maps that agree on every key the tool's option mapping consults (its de
facto option schema) produce identical normalized option bags, identical
processor outcomes, and identical route responses; and the concrete
compress request carrying the unregistered option foo=bar still succeeds
end to end. -/
theorem unknown_form_keys_dropped (slug : String) (f1 f2 : Form)
    (h : ∀ k ∈ consultedKeys slug, f1.get? k = f2.get? k)
    (env : Env) (files : List FileBlob) (ups : List Upload) :
    mapOptions slug f1 = mapOptions slug f2 ∧
    utilsProcess env slug files (mapOptions slug f1) =
      utilsProcess env slug files (mapOptions slug f2) ∧
    processTool env slug ups f1 = processTool env slug ups f2 ∧
    processTool envAll "compress-pdf" [sampleUpload] [("foo", "bar")] =
      .fileDownload (.compressed "medium") "compressed.pdf" "application/pdf" := by
  have hD : ∀ k, k ∈ consultedKeys slug → ∀ d, f1.getD k d = f2.getD k d := by
    intro k hk d
    unfold Form.getD
    rw [h k hk]
  have hm : mapOptions slug f1 = mapOptions slug f2 := by
    have c0 := hD "pages" (by simp [consultedKeys]) ""
    have c1 := hD "password" (by simp [consultedKeys]) ""
    have c2 := hD "watermark_text" (by simp [consultedKeys]) ""
    have c3 := h "keep_filename_hidden" (by simp [consultedKeys])
    by_cases s1 : slug = "compress-pdf"
    · subst s1
      have d1 := hD "compression_level" (by simp [consultedKeys]) "2"
      simp [mapOptions, c0, c1, c2, c3, d1]
    by_cases s2 : slug = "rotate-pdf"
    · subst s2
      have d1 := hD "rotation_angle" (by simp [consultedKeys]) "0"
      simp [mapOptions, c0, c1, c2, c3, d1]
    by_cases s3 : slug = "watermark-pdf"
    · subst s3
      have d1 := hD "watermark_opacity" (by simp [consultedKeys]) "0.15"
      have d2 := hD "watermark_position" (by simp [consultedKeys]) "center"
      simp [mapOptions, c0, c1, c2, c3, d1, d2]
    by_cases s4 : slug = "organize-pdf"
    · subst s4
      have d1 := h "page_order" (by simp [consultedKeys])
      have d2 := h "deleted_pages" (by simp [consultedKeys])
      have d3 := h "delete_pages" (by simp [consultedKeys])
      simp [mapOptions, c0, c1, c2, c3, d1, d2, d3]
    by_cases s5 : slug = "crop-pdf"
    · subst s5
      have d1 := h "page_order" (by simp [consultedKeys])
      have d2 := h "deleted_pages" (by simp [consultedKeys])
      have d3 := h "delete_pages" (by simp [consultedKeys])
      have d4 := h "crop_regions" (by simp [consultedKeys])
      have d5 := hD "crop_top" (by simp [consultedKeys]) "0"
      have d6 := hD "crop_right" (by simp [consultedKeys]) "0"
      have d7 := hD "crop_bottom" (by simp [consultedKeys]) "0"
      have d8 := hD "crop_left" (by simp [consultedKeys]) "0"
      simp [mapOptions, c0, c1, c2, c3, d1, d2, d3, d4, d5, d6, d7, d8]
    by_cases s6 : slug = "resize-pdf"
    · subst s6
      have d1 := hD "page_size" (by simp [consultedKeys]) "A4"
      simp [mapOptions, c0, c1, c2, c3, d1]
    by_cases s7 : slug = "ocr-pdf"
    · subst s7
      have d1 := hD "ocr_lang" (by simp [consultedKeys]) "eng"
      simp [mapOptions, c0, c1, c2, c3, d1]
    by_cases s8 : slug = "metadata-editor"
    · subst s8
      have d1 := h "title" (by simp [consultedKeys])
      have d2 := h "author" (by simp [consultedKeys])
      have d3 := h "subject" (by simp [consultedKeys])
      have d4 := h "keywords" (by simp [consultedKeys])
      have d5 := h "creator" (by simp [consultedKeys])
      have d6 := h "producer" (by simp [consultedKeys])
      simp [mapOptions, c0, c1, c2, c3, d1, d2, d3, d4, d5, d6]
    by_cases s9 : slug = "fill-forms"
    · subst s9
      have d1 := hD "form_data_json" (by simp [consultedKeys]) "\x7b\x7d"
      simp [mapOptions, c0, c1, c2, c3, d1]
    · simp [mapOptions, c0, c1, c2, c3, s1, s2, s3, s4, s5, s6, s7, s8, s9]
  refine ⟨hm, by rw [hm], ?_, by decide⟩
  unfold processTool
  rw [hm]

/-- Witness for C8: the compress form with and without the unregistered key
foo produces the same option bag. -/
theorem unknown_form_keys_dropped_witness :
    (∀ k ∈ consultedKeys "compress-pdf",
      Form.get? [("compression_level", "2")] k =
        Form.get? [("compression_level", "2"), ("foo", "bar")] k) ∧
    mapOptions "compress-pdf" [("compression_level", "2")] =
      mapOptions "compress-pdf" [("compression_level", "2"), ("foo", "bar")] :=
  ⟨by decide, (unknown_form_keys_dropped "compress-pdf" [("compression_level", "2")]
    [("compression_level", "2"), ("foo", "bar")] (by decide) envAll [] []).1⟩

end BlinkPDF
